import Mathlib

/-!
Verification development for the decision-dashboard program (`src/main.py`).

The program is a single `main()` that builds a five-row table of decision
records, derives two columns (input type, time to outcome in days), and
renders metrics, filters and group-by summaries.  Below, each pandas
operation used by the program is shallowly embedded as a pure Lean function
over lists of records, and the specification's claims about them are proved
or refuted.

Modelling conventions:
* a DataFrame is a `List` of row structures, in row order;
* Python strings are Lean `String`s; `str.lower` is modelled per character by
  `Char.toLower` (they agree on the ASCII keywords and data this program
  uses); Python's `in` on strings is substring containment, embedded as
  `containsSub` over character lists;
* ISO date strings are transcribed as `(year, month, day)` triples and
  `pd.to_datetime` subtraction in whole days is embedded via the standard
  civil-calendar day number (`daysFromCivil`);
* `DataFrame.sort_values(ascending=False)` reverses the array, argsorts
  ascending, and reverses the resulting indexer, which for the small frames
  here (numpy uses insertion sort below 16 elements) is exactly a stable
  descending sort; it is embedded with Mathlib's stable `List.insertionSort`;
* `groupby(sort=True)` (the default) emits groups in ascending key order;
  floating-point means are embedded as exact rationals, and the mean of an
  empty column (`NaN` in pandas, no exception) as `none`.
-/

/-- Lowercased character list of a string, the model of `input_text.lower()`. -/
def lowerChars (s : String) : List Char := s.data.map Char.toLower

/-- Decides whether the first list is a prefix of the second. -/
def isPrefixList : List Char → List Char → Bool
  | [], _ => true
  | _ :: _, [] => false
  | a :: as, b :: bs => a == b && isPrefixList as bs

/-- Decides whether `needle` occurs as a contiguous substring of `hay`:
the model of Python's `needle in hay` on strings. -/
def containsSub (needle : List Char) : List Char → Bool
  | [] => isPrefixList needle []
  | b :: bs => isPrefixList needle (b :: bs) || containsSub needle bs

/-- Embedding of `categorize_input` (src/main.py lines 91-97): keyword rules
checked in order, case-insensitive substring matching. -/
def categorize_input (input_text : String) : String :=
  if ["trend", "analysis", "logs"].any (fun x => containsSub x.data (lowerChars input_text)) then
    "📊 Data Analysis"
  else if ["survey", "comment", "complaint"].any (fun x => containsSub x.data (lowerChars input_text)) then
    "🗣️ Feedback"
  else
    "🔍 Observation"

/-- Day number of a proleptic-Gregorian civil date (for year ≥ 1), after
Howard Hinnant's `days_from_civil`; `pd.to_datetime` date differences in
whole days equal differences of this function. -/
def daysFromCivil (y m d : Int) : Int :=
  let y2 : Int := if m ≤ 2 then y - 1 else y
  let era : Int := y2 / 400
  let yoe : Int := y2 - era * 400
  let doy : Int := (153 * ((m + 9) % 12) + 2) / 5 + d - 1
  let doe : Int := yoe * 365 + yoe / 4 - yoe / 100 + doy
  era * 146097 + doe - 719468

/-- Day number of a `(year, month, day)` triple. -/
def dayNumber (t : Nat × Nat × Nat) : Int :=
  daysFromCivil t.1 t.2.1 t.2.2

/-- One decision record as listed in the sample table
(src/main.py lines 14-85); the ISO date strings are transcribed as
`(year, month, day)` triples. -/
structure DecisionRecord where
  id : String
  owner : String
  team : String
  decisionDate : Nat × Nat × Nat
  outcomeDate : Nat × Nat × Nat
  goal : String
  whatWasTried : String
  inputsUsed : String
  result : String
  effectiveness : String
  repeatableWin : Bool
  starDecision : Bool
deriving DecidableEq

/-- Record D001 of the sample table. -/
def d001 : DecisionRecord :=
  { id := "D001", owner := "Maria G.", team := "Call Center"
    decisionDate := (2025, 7, 1), outcomeDate := (2025, 7, 5)
    goal := "Lower ASA", whatWasTried := "Realigned shift start times"
    inputsUsed := "Call volume trend, shift overlap data"
    result := "ASA dropped from 42s to 28s"
    effectiveness := "✅ Effective", repeatableWin := true, starDecision := true }

/-- Record D002 of the sample table. -/
def d002 : DecisionRecord :=
  { id := "D002", owner := "James K.", team := "Referral"
    decisionDate := (2025, 7, 3), outcomeDate := (2025, 7, 10)
    goal := "Faster Scheduling", whatWasTried := "Removed manual form review"
    inputsUsed := "Referral approval logs"
    result := "Scheduling improved by 2 days"
    effectiveness := "⚠️ Somewhat Effective", repeatableWin := false, starDecision := false }

/-- Record D003 of the sample table. -/
def d003 : DecisionRecord :=
  { id := "D003", owner := "Linda T.", team := "Billing"
    decisionDate := (2025, 7, 5), outcomeDate := (2025, 7, 17)
    goal := "Lower AR Days", whatWasTried := "Added denial triage in backlog"
    inputsUsed := "Anecdotal staff complaints"
    result := "No measurable impact yet"
    effectiveness := "❌ Not Effective", repeatableWin := false, starDecision := false }

/-- Record D004 of the sample table. -/
def d004 : DecisionRecord :=
  { id := "D004", owner := "Carlos V.", team := "QA"
    decisionDate := (2025, 7, 6), outcomeDate := (2025, 7, 11)
    goal := "Improve Patient Experience", whatWasTried := "Call empathy scripts"
    inputsUsed := "Patient survey comments"
    result := "Survey scores improved"
    effectiveness := "✅ Effective", repeatableWin := true, starDecision := true }

/-- Record D005 of the sample table. -/
def d005 : DecisionRecord :=
  { id := "D005", owner := "Maria G.", team := "Call Center"
    decisionDate := (2025, 7, 8), outcomeDate := (2025, 7, 10)
    goal := "Reduce Call Transfers", whatWasTried := "Expanded self-service tree"
    inputsUsed := "Top 10 call reasons analysis"
    result := "Transfers down 12%"
    effectiveness := "✅ Effective", repeatableWin := true, starDecision := false }

/-- The sample decision data set (`data`, src/main.py lines 14-85), before
the derived columns are added. -/
def data : List DecisionRecord := [d001, d002, d003, d004, d005]

/-- Whole-day difference `outcomeDate - decisionDate` of one record: the
per-row value of `(data["Outcome Date"] - data["Decision Date"]).dt.days`
(src/main.py line 102).  A plain integer; the program performs no check
that it is non-negative. -/
def timeToOutcome (r : DecisionRecord) : Int :=
  dayNumber r.outcomeDate - dayNumber r.decisionDate

/-- A row of the table after src/main.py lines 99-102 ran: the record plus
the two derived columns `"Input Type"` and `"Time to Outcome (days)"`. -/
structure StoredRow extends DecisionRecord where
  inputType : String
  timeToOutcomeDays : Int
deriving DecidableEq

/-- Row-wise embedding of src/main.py lines 99-102: derive the input-type
and time-to-outcome columns for every record. -/
def addDerivedColumns (rs : List DecisionRecord) : List StoredRow :=
  rs.map (fun r =>
    { toDecisionRecord := r
      inputType := categorize_input r.inputsUsed
      timeToOutcomeDays := timeToOutcome r })

/-- The dashboard's table for the session: the sample records with both
derived columns present (the state of `data` after src/main.py line 102). -/
def dataWithDerived : List StoredRow := addDerivedColumns data

/-- The three multiselect filter values (src/main.py lines 128-130); a
widget with nothing selected yields the empty list. -/
structure Criteria where
  owners : List String
  teams : List String
  effectiveness : List String
deriving DecidableEq

/-- Embedding of the filter block (src/main.py lines 131-137):
`filtered = data.copy()` followed by one `isin` filter per non-empty
multiselect value (Python's `if f_owner:` is false exactly on the empty
list). -/
def filterRecords (rows : List StoredRow) (c : Criteria) : List StoredRow :=
  let filtered := rows
  let filtered := if c.owners.isEmpty then filtered
    else filtered.filter (fun r => c.owners.contains r.owner)
  let filtered := if c.teams.isEmpty then filtered
    else filtered.filter (fun r => c.teams.contains r.team)
  if c.effectiveness.isEmpty then filtered
  else filtered.filter (fun r => c.effectiveness.contains r.effectiveness)

/-- Per-record filter predicate: every non-empty criterion list must contain
the record's corresponding field value. -/
def passB (c : Criteria) (r : StoredRow) : Bool :=
  (c.owners.isEmpty || c.owners.contains r.owner) &&
  ((c.teams.isEmpty || c.teams.contains r.team) &&
    (c.effectiveness.isEmpty || c.effectiveness.contains r.effectiveness))

/-- Embedding of `filtered[filtered["STAR Decision"]]`
(src/main.py line 144). -/
def star_decisions (rows : List StoredRow) : List StoredRow :=
  rows.filter (fun r => r.starDecision)

/-- The four key metrics (src/main.py lines 118-121).  The two means are
exact rationals; on an empty frame pandas produces `NaN` without raising,
modelled as `none`. -/
structure SummaryMetrics where
  totalCount : Nat
  avgTimeToOutcome : Option ℚ
  effectiveRatePercent : Option ℚ
  repeatableWinCount : Nat
deriving DecidableEq

/-- Embedding of the key-metrics block (src/main.py lines 118-121):
`len(data)`, `data["Time to Outcome (days)"].mean()`,
`(data["Effectiveness"] == "✅ Effective").mean() * 100`, and
`data["Repeatable Win"].sum()`. -/
def summaryMetrics (rows : List StoredRow) : SummaryMetrics :=
  { totalCount := rows.length
    avgTimeToOutcome :=
      if rows.length = 0 then none
      else some (((rows.map (fun r => r.timeToOutcomeDays)).sum : ℚ) / (rows.length : ℚ))
    effectiveRatePercent :=
      if rows.length = 0 then none
      else some ((rows.countP (fun r => r.effectiveness == "✅ Effective") : ℚ) / (rows.length : ℚ) * 100)
    repeatableWinCount := rows.countP (fun r => r.repeatableWin) }

/-- First-occurrence deduplication with an accumulator of already-seen
values: the order in which a pandas hash table yields unique keys. -/
def dedupFirstAux [BEq α] (seen : List α) : List α → List α
  | [] => []
  | x :: xs =>
    if seen.contains x then dedupFirstAux seen xs
    else x :: dedupFirstAux (x :: seen) xs

/-- Unique values of a list in order of first occurrence. -/
def dedupFirst [BEq α] (l : List α) : List α := dedupFirstAux [] l

/-- Non-strict lexicographic order on character lists, comparing code
points: the order Python uses to compare `str` values. -/
def lexLeB : List Char → List Char → Bool
  | [], _ => true
  | _ :: _, [] => false
  | a :: as, b :: bs =>
    if a.toNat < b.toNat then true
    else if b.toNat < a.toNat then false
    else lexLeB as bs

/-- Non-strict lexicographic string order as a proposition. -/
def strLE (a b : String) : Prop := lexLeB a.data b.data = true

instance : DecidableRel strLE := fun a b => by unfold strLE; exact inferInstance

/-- Non-strict lexicographic order on `(String, String)` group keys, the
order `groupby(["Input Type", "Inputs Used"], sort=True)` emits groups in:
by first component, then by second on ties. -/
def keyLeB (a b : String × String) : Bool :=
  if lexLeB a.1.data b.1.data then
    if lexLeB b.1.data a.1.data then lexLeB a.2.data b.2.data else true
  else false

/-- Propositional form of `keyLeB`. -/
def keyLE (a b : String × String) : Prop := keyLeB a b = true

instance : DecidableRel keyLE := fun a b => by unfold keyLE; exact inferInstance

/-- Descending comparison by a natural-number sort key. -/
def descBy (f : α → Nat) (a b : α) : Prop := f b ≤ f a

instance (f : α → Nat) : DecidableRel (descBy f) := fun a b => by
  unfold descBy; exact inferInstance

/-- Embedding of `sort_values(column, ascending=False)`: pandas reverses the
array, argsorts ascending, and reverses the indexer, so ties keep their
original relative order; on frames this small the underlying numpy
quicksort is an insertion sort, hence exactly a stable descending sort. -/
def sort_values_desc (f : α → Nat) (l : List α) : List α :=
  List.insertionSort (descBy f) l

/-- Embedding of `filtered["Effectiveness"].value_counts()` (src/main.py
line 157): one `(value, count)` pair per distinct value that occurs, sorted
descending by count.  Values that never occur get no entry. -/
def effectiveness_summary (rows : List StoredRow) : List (String × Nat) :=
  sort_values_desc (fun p => p.2)
    ((dedupFirst (rows.map (fun r => r.effectiveness))).map
      (fun v => (v, rows.countP (fun r => r.effectiveness == v))))

/-- Group key of the input-usage table: the stored `"Input Type"` column
paired with the exact `"Inputs Used"` text. -/
def rowKey (r : StoredRow) : String × String := (r.inputType, r.inputsUsed)

/-- Embedding of the input-usage table (src/main.py lines 185-190):
`groupby(["Input Type", "Inputs Used"]).size()` (groups emitted in ascending
key order) followed by `sort_values("Times Used", ascending=False)`. -/
def inputs_used (rows : List StoredRow) : List (String × String × Nat) :=
  let keys := List.insertionSort keyLE (dedupFirst (rows.map rowKey))
  sort_values_desc (fun t => t.2.2)
    (keys.map (fun k => (k.1, k.2, rows.countP (fun r => rowKey r == k))))

/-- One row of the owner-performance table (src/main.py lines 198-206). -/
structure OwnerSummary where
  owner : String
  decisionsMade : Nat
  percentEffective : ℚ
  avgTimeToOutcome : ℚ
deriving DecidableEq

/-- Embedding of the owner-performance table (src/main.py lines 198-206):
`groupby("Owner")` (owners in ascending order) aggregating the count of IDs,
`(x == "✅ Effective").mean() * 100`, and the mean time to outcome. -/
def owner_summary (rows : List StoredRow) : List OwnerSummary :=
  (List.insertionSort strLE (dedupFirst (rows.map (fun r => r.owner)))).map
    (fun o =>
      let grp := rows.filter (fun r => r.owner == o)
      { owner := o
        decisionsMade := grp.length
        percentEffective :=
          (grp.countP (fun r => r.effectiveness == "✅ Effective") : ℚ) / (grp.length : ℚ) * 100
        avgTimeToOutcome := ((grp.map (fun r => r.timeToOutcomeDays)).sum : ℚ) / (grp.length : ℚ) })

/-- Model of the DataFrame variable `data` as a store that can gain
columns: the base rows plus the two derived columns, each `none` while the
column has not been written. -/
structure DataTable where
  rows : List DecisionRecord
  inputTypeCol : Option (List String)
  timeToOutcomeCol : Option (List Int)
deriving DecidableEq

/-- The store right after the sample table is built (src/main.py line 85):
no derived columns exist yet. -/
def loadedTable : DataTable :=
  { rows := data, inputTypeCol := none, timeToOutcomeCol := none }

/-- Embedding of src/main.py lines 99-102: the two derived columns are
computed from the stored rows and written onto the stored table. -/
def writeDerivedColumns (t : DataTable) : DataTable :=
  { t with
    inputTypeCol := some (t.rows.map (fun r => categorize_input r.inputsUsed))
    timeToOutcomeCol := some (t.rows.map timeToOutcome) }

/-- The stored table for the rest of the session. -/
def sessionTable : DataTable := writeDerivedColumns loadedTable

/-- All outputs the dashboard derives from the stored table in sections
5-11 of src/main.py. -/
structure DashOutputs where
  filtered : List StoredRow
  starRows : List StoredRow
  metrics : SummaryMetrics
  effectivenessChart : List (String × Nat)
  inputUsage : List (String × String × Nat)
  ownerTable : List OwnerSummary
deriving DecidableEq

/-- Embedding of the analytics phase (src/main.py sections 4-11): given the
current filter criteria and the stored table, produce every derived view
and return the stored table as it stands afterwards.  `filtered` starts
from `data.copy()`, and no statement in these sections assigns to `data`,
so the returned table is the input table. -/
def analyticsPhase (c : Criteria) (t : List StoredRow) : DashOutputs × List StoredRow :=
  let filtered := filterRecords t c
  (⟨filtered, star_decisions filtered, summaryMetrics t,
    effectiveness_summary filtered, inputs_used filtered, owner_summary filtered⟩, t)

/-- A syntactically well-formed record that violates the spec's invariant
`outcomeDate >= decisionDate`: the outcome predates the decision by three
days. -/
def badRecord : DecisionRecord :=
  { id := "DX01", owner := "Test Owner", team := "Test Team"
    decisionDate := (2025, 7, 10), outcomeDate := (2025, 7, 7)
    goal := "g", whatWasTried := "w", inputsUsed := "i", result := "r"
    effectiveness := "✅ Effective", repeatableWin := false, starDecision := false }

/-- Spec-side predicate for the keyword rules: the lowercased input text
contains some keyword of `kws` as a contiguous substring, stated by
decomposition rather than through the program's matcher. -/
def keywordHit (kws : List String) (s : String) : Prop :=
  ∃ kw ∈ kws, ∃ l r : List Char, lowerChars s = l ++ kw.data ++ r

/-! ### Helper lemmas -/

/-- `isPrefixList` decides the prefix relation. -/
theorem isPrefixList_iff (n h : List Char) : isPrefixList n h = true ↔ ∃ r, h = n ++ r := by
  induction n generalizing h with
  | nil => simp [isPrefixList]
  | cons a as ih =>
    cases h with
    | nil =>
      simp [isPrefixList]
    | cons b bs =>
      simp only [isPrefixList, Bool.and_eq_true, beq_iff_eq, ih, List.cons_append,
        List.cons.injEq]
      constructor
      · rintro ⟨rfl, r, rfl⟩
        exact ⟨r, rfl, rfl⟩
      · rintro ⟨r, rfl, rfl⟩
        exact ⟨rfl, r, rfl⟩

/-- `containsSub` decides contiguous-substring containment, the meaning of
Python's `needle in haystack` on strings. -/
theorem containsSub_iff (n h : List Char) :
    containsSub n h = true ↔ ∃ l r, h = l ++ (n ++ r) := by
  induction h with
  | nil =>
    simp only [containsSub, isPrefixList_iff]
    constructor
    · rintro ⟨r, hr⟩
      exact ⟨[], r, by simpa using hr⟩
    · rintro ⟨l, r, hr⟩
      rcases List.append_eq_nil.mp hr.symm with ⟨rfl, h2⟩
      exact ⟨r, by simpa using hr⟩
  | cons b bs ih =>
    simp only [containsSub, Bool.or_eq_true, isPrefixList_iff, ih]
    constructor
    · rintro (⟨r, hr⟩ | ⟨l, r, rfl⟩)
      · exact ⟨[], r, by simpa using hr⟩
      · exact ⟨b :: l, r, rfl⟩
    · rintro ⟨l, r, hr⟩
      cases l with
      | nil => exact Or.inl ⟨r, by simpa using hr⟩
      | cons x xs =>
        rcases List.cons.injEq .. ▸ hr with ⟨rfl, hbs⟩
        exact Or.inr ⟨xs, r, hbs⟩

/-- The keyword test inside `categorize_input` decides `keywordHit`. -/
theorem any_keyword_iff (kws : List String) (s : String) :
    (kws.any fun x => containsSub x.data (lowerChars s)) = true ↔ keywordHit kws s := by
  simp only [List.any_eq_true, containsSub_iff, keywordHit, List.append_assoc]

/-- The sequential `isin` filters of the filter block equal one pass of the
conjunction predicate `passB`. -/
theorem filterRecords_eq (rows : List StoredRow) (c : Criteria) :
    filterRecords rows c = rows.filter (passB c) := by
  rcases c with ⟨os, ts, es⟩
  unfold filterRecords passB
  rcases hos : os.isEmpty <;> rcases hts : ts.isEmpty <;> rcases hes : es.isEmpty <;>
    simp [hos, hts, hes, List.filter_filter] <;>
    exact List.filter_congr fun a _ => by
      cases hA : decide (a.owner ∈ os) <;> cases hB : decide (a.team ∈ ts) <;>
        cases hC : decide (a.effectiveness ∈ es) <;> simp [hA, hB, hC]

/-- Membership in the accumulator-based first-occurrence deduplication. -/
theorem mem_dedupFirstAux [BEq α] [LawfulBEq α] (xs : List α) (seen : List α) (a : α) :
    a ∈ dedupFirstAux seen xs ↔ a ∈ xs ∧ ¬ a ∈ seen := by
  induction xs generalizing seen with
  | nil => simp [dedupFirstAux]
  | cons x t ih =>
    by_cases hx : x ∈ seen
    · rw [dedupFirstAux, if_pos (List.elem_eq_true_of_mem hx), ih]
      constructor
      · rintro ⟨hat, hns⟩
        exact ⟨List.mem_cons_of_mem _ hat, hns⟩
      · rintro ⟨hat, hns⟩
        rcases List.mem_cons.mp hat with rfl | hat
        · exact absurd hx hns
        · exact ⟨hat, hns⟩
    · rw [dedupFirstAux, if_neg (by simpa using hx)]
      simp only [List.mem_cons, ih, List.mem_cons]
      constructor
      · rintro (rfl | ⟨hat, hns⟩)
        · exact ⟨Or.inl rfl, hx⟩
        · exact ⟨Or.inr hat, fun hs => hns (Or.inr hs)⟩
      · rintro ⟨rfl | hat, hns⟩
        · exact Or.inl rfl
        · by_cases hax : a = x
          · exact Or.inl hax
          · exact Or.inr ⟨hat, fun hs => (hs.elim hax hns)⟩

/-- The deduplicated list has no duplicates. -/
theorem nodup_dedupFirstAux [BEq α] [LawfulBEq α] (xs : List α) (seen : List α) :
    (dedupFirstAux seen xs).Nodup := by
  induction xs generalizing seen with
  | nil => simp [dedupFirstAux]
  | cons x t ih =>
    rw [dedupFirstAux]
    split
    · exact ih seen
    · refine List.nodup_cons.mpr ⟨fun hx => ?_, ih (x :: seen)⟩
      exact ((mem_dedupFirstAux t (x :: seen) x).mp hx).2 (List.mem_cons_self x seen)

/-- Membership in the first-occurrence deduplication. -/
theorem mem_dedupFirst [BEq α] [LawfulBEq α] (l : List α) (a : α) :
    a ∈ dedupFirst l ↔ a ∈ l := by
  simp [dedupFirst, mem_dedupFirstAux]

/-- First-occurrence deduplication never repeats a value. -/
theorem nodup_dedupFirst [BEq α] [LawfulBEq α] (l : List α) : (dedupFirst l).Nodup :=
  nodup_dedupFirstAux l []

/-- `sort_values_desc` permutes its input. -/
theorem perm_sort_values_desc (f : α → Nat) (l : List α) :
    (sort_values_desc f l).Perm l :=
  List.perm_insertionSort _ l

/-- `sort_values_desc` sorts descending by the key. -/
theorem pairwise_sort_values_desc (f : α → Nat) (l : List α) :
    (sort_values_desc f l).Pairwise (fun a b => f b ≤ f a) := by
  haveI : IsTotal α (descBy f) := ⟨fun a b => Nat.le_total (f b) (f a)⟩
  haveI : IsTrans α (descBy f) := ⟨fun a b c h1 h2 => Nat.le_trans h2 h1⟩
  exact List.sorted_insertionSort (descBy f) l

/-- An empty-or-membership disjunct equals the guarded membership the spec
states for one criterion. -/
theorem isEmpty_or_contains_iff (l : List String) (x : String) :
    (l.isEmpty || l.contains x) = true ↔ (l ≠ [] → x ∈ l) := by
  cases l <;> simp

/-! ### Claims -/

/-- C1: `categorize_input` applies the keyword rules in the fixed order
DataAnalysis before Feedback before Observation: if the lowercased input
contains any of "trend", "analysis", "logs" as a substring it returns
"📊 Data Analysis" (even when Feedback keywords are also present);
otherwise, if it contains any of "survey", "comment", "complaint", it
returns "🗣️ Feedback"; otherwise — the empty string included — it returns
"🔍 Observation".  Matching is case-insensitive substring matching with no
tokenization (`keywordHit` is stated by substring decomposition of the
lowercased text). -/
theorem C1_classify_rule_order (s : String) :
    (keywordHit ["trend", "analysis", "logs"] s → categorize_input s = "📊 Data Analysis") ∧
    (¬ keywordHit ["trend", "analysis", "logs"] s →
      keywordHit ["survey", "comment", "complaint"] s → categorize_input s = "🗣️ Feedback") ∧
    (¬ keywordHit ["trend", "analysis", "logs"] s →
      ¬ keywordHit ["survey", "comment", "complaint"] s →
      categorize_input s = "🔍 Observation") ∧
    categorize_input "" = "🔍 Observation" := by
  have hDA := any_keyword_iff ["trend", "analysis", "logs"] s
  have hFB := any_keyword_iff ["survey", "comment", "complaint"] s
  refine ⟨fun h => ?_, fun h1 h2 => ?_, fun h1 h2 => ?_, by decide⟩
  · unfold categorize_input
    rw [if_pos (hDA.mpr h)]
  · unfold categorize_input
    rw [if_neg (fun hc => h1 (hDA.mp hc)), if_pos (hFB.mpr h2)]
  · unfold categorize_input
    rw [if_neg (fun hc => h1 (hDA.mp hc)), if_neg (fun hc => h2 (hFB.mp hc))]

/-- Witness for C1: a string holding both a Feedback keyword ("survey") and
a DataAnalysis keyword ("LOGS", upper case) is classified DataAnalysis. -/
theorem C1_classify_rule_order_witness :
    categorize_input "Customer survey with LOGS attached" = "📊 Data Analysis" :=
  (C1_classify_rule_order "Customer survey with LOGS attached").1
    ⟨"logs", by decide, "customer survey with ".data, " attached".data, by decide⟩

/-- C2: the sequential filter block returns exactly the records whose field
value is a member of each supplied non-empty criterion list, in the input's
original order (it equals one order-preserving `List.filter` pass of that
predicate), and all-empty criteria give back the input unchanged. -/
theorem C2_filter_semantics (rows : List StoredRow) (c : Criteria) :
    filterRecords rows c = rows.filter (passB c) ∧
    (∀ r : StoredRow, passB c r = true ↔
      ((c.owners ≠ [] → r.owner ∈ c.owners) ∧
        ((c.teams ≠ [] → r.team ∈ c.teams) ∧
          (c.effectiveness ≠ [] → r.effectiveness ∈ c.effectiveness)))) ∧
    filterRecords rows { owners := [], teams := [], effectiveness := [] } = rows := by
  refine ⟨filterRecords_eq rows c, fun r => ?_, rfl⟩
  unfold passB
  rw [Bool.and_eq_true, Bool.and_eq_true, isEmpty_or_contains_iff,
    isEmpty_or_contains_iff, isEmpty_or_contains_iff]

/-- Witness for C2, applied to the session table with an owner filter. -/
theorem C2_filter_semantics_witness :
    filterRecords dataWithDerived { owners := ["Maria G."], teams := [], effectiveness := [] } =
      dataWithDerived.filter
        (passB { owners := ["Maria G."], teams := [], effectiveness := [] }) :=
  (C2_filter_semantics dataWithDerived
    { owners := ["Maria G."], teams := [], effectiveness := [] }).1

/-- C7: every analytics computation of the program returns a value on the
empty table — zero count and `none` means for the metrics, empty lists for
the tables — rather than failing (in pandas the empty means are `NaN`,
produced without an exception; all other operations yield empty frames). -/
theorem C7_empty_input_total :
    summaryMetrics [] =
      { totalCount := 0, avgTimeToOutcome := none, effectiveRatePercent := none, repeatableWinCount := 0 } ∧
    star_decisions [] = [] ∧
    effectiveness_summary [] = [] ∧
    inputs_used [] = [] ∧
    owner_summary [] = [] ∧
    (∀ c : Criteria, filterRecords [] c = []) := by
  refine ⟨rfl, rfl, rfl, rfl, rfl, fun c => ?_⟩
  rw [filterRecords_eq]
  rfl

/-- Witness for C7: filtering the empty table with non-empty criteria. -/
theorem C7_empty_input_total_witness :
    filterRecords []
      { owners := ["Maria G."], teams := ["QA"], effectiveness := ["✅ Effective"] } = [] :=
  C7_empty_input_total.2.2.2.2.2
    { owners := ["Maria G."], teams := ["QA"], effectiveness := ["✅ Effective"] }

/-- C8: filtering the loaded table with all-empty criteria and then taking
the summary metrics gives exactly the summary metrics of the full table. -/
theorem C8_roundtrip :
    summaryMetrics
        (filterRecords dataWithDerived { owners := [], teams := [], effectiveness := [] }) =
      summaryMetrics dataWithDerived := rfl

/-- C10: the filter is idempotent — filtering twice with the same criteria
equals filtering once — and its output is a subsequence of its input. -/
theorem C10_filter_idempotent (rows : List StoredRow) (c : Criteria) :
    filterRecords (filterRecords rows c) c = filterRecords rows c ∧
    (filterRecords rows c).Sublist rows := by
  constructor
  · simp only [filterRecords_eq, List.filter_filter]
    exact List.filter_congr fun a _ => by cases h : passB c a <;> simp [h]
  · rw [filterRecords_eq]
    exact List.filter_sublist rows

/-- C3: on the five-record sample set the key metrics are totalCount 5,
effective rate 60 percent and 3 repeatable wins, and the owner-performance
table (owners in ascending order, so "Maria G." is row index 3) gives
Maria G. two decisions made and 100 percent effective. -/
theorem C3_sample_metrics :
    (summaryMetrics dataWithDerived).totalCount = 5 ∧
    (summaryMetrics dataWithDerived).effectiveRatePercent = some 60 ∧
    (summaryMetrics dataWithDerived).repeatableWinCount = 3 ∧
    (owner_summary dataWithDerived).map (fun o => (o.owner, o.decisionsMade)) =
      [("Carlos V.", 1), ("James K.", 1), ("Linda T.", 1), ("Maria G.", 2)] ∧
    ((owner_summary dataWithDerived).get ⟨3, by decide⟩).owner = "Maria G." ∧
    ((owner_summary dataWithDerived).get ⟨3, by decide⟩).decisionsMade = 2 ∧
    ((owner_summary dataWithDerived).get ⟨3, by decide⟩).percentEffective = 100 := by
  refine ⟨by decide, ?_, by decide, by decide, by decide, by decide, ?_⟩
  · show some (((3 : Nat) : ℚ) / ((5 : Nat) : ℚ) * 100) = some 60
    norm_num
  · show ((2 : Nat) : ℚ) / ((2 : Nat) : ℚ) * 100 = 100
    norm_num

/-- C4 counterexample: on a record whose outcome date precedes its decision
date by three days, the program returns the plain value `-3` — negative and
unclamped — instead of failing, and building the derived table from such a
record succeeds; no `InvalidRecordError` (or any load-time validation)
exists in the program. -/
theorem C4_negative_diff_counterexample :
    timeToOutcome badRecord = -3 ∧
    timeToOutcome badRecord < 0 ∧
    (addDerivedColumns [badRecord]).map (fun r => r.timeToOutcomeDays) = [-3] := by
  refine ⟨by decide, by decide, by decide⟩

/-- C4 amended: `timeToOutcome` is the unvalidated whole-day difference
`outcomeDate - decisionDate`; on the five records actually loaded it gives
[4, 7, 12, 5, 2], all non-negative, but nothing in the program enforces
that. -/
theorem C4_time_to_outcome_amended :
    dataWithDerived.map (fun r => r.timeToOutcomeDays) = [4, 7, 12, 5, 2] ∧
    dataWithDerived.all (fun r => decide (0 ≤ r.timeToOutcomeDays)) = true := by decide

/-- C5 counterexample: over a table holding only Effective records,
`value_counts` reports one entry for "✅ Effective" and no entry at all —
rather than an explicit zero count — for the other two enum values. -/
theorem C5_missing_zero_counts_counterexample :
    effectiveness_summary (addDerivedColumns [d001]) = [("✅ Effective", 1)] ∧
    ¬ "⚠️ Somewhat Effective" ∈ (effectiveness_summary (addDerivedColumns [d001])).map Prod.fst ∧
    ¬ "❌ Not Effective" ∈ (effectiveness_summary (addDerivedColumns [d001])).map Prod.fst := by
  decide

/-- C5 amended: `effectiveness_summary` returns exactly one entry per
distinct effectiveness value that occurs in the records (absent enum values
get no zero-count entry), each entry counting the records with that value,
sorted descending by count. -/
theorem C5_breakdown_amended (rows : List StoredRow) :
    ((effectiveness_summary rows).map Prod.fst).Nodup ∧
    (∀ v : String,
      v ∈ (effectiveness_summary rows).map Prod.fst ↔ v ∈ rows.map (fun r => r.effectiveness)) ∧
    (∀ p ∈ effectiveness_summary rows, p.2 = rows.countP (fun r => r.effectiveness == p.1)) ∧
    (effectiveness_summary rows).Pairwise (fun a b => b.2 ≤ a.2) := by
  unfold effectiveness_summary
  have hperm := perm_sort_values_desc (fun p : String × Nat => p.2)
    ((dedupFirst (rows.map fun r => r.effectiveness)).map
      (fun v => (v, rows.countP (fun r => r.effectiveness == v))))
  have hmapfst :
      ((dedupFirst (rows.map fun r => r.effectiveness)).map
        (fun v => (v, rows.countP (fun r => r.effectiveness == v)))).map Prod.fst =
        dedupFirst (rows.map fun r => r.effectiveness) := by
    rw [List.map_map]
    exact List.map_id _
  refine ⟨?_, fun v => ?_, fun p hp => ?_, pairwise_sort_values_desc _ _⟩
  · refine ((hperm.map Prod.fst).nodup_iff).mpr ?_
    rw [hmapfst]
    exact nodup_dedupFirst _
  · rw [(hperm.map Prod.fst).mem_iff, hmapfst, mem_dedupFirst]
  · rcases List.mem_map.mp (hperm.mem_iff.mp hp) with ⟨w, hw, rfl⟩
    rfl

/-- Witness for C5 amended: the count recorded for "✅ Effective" on the
session table is the number of records carrying that value. -/
theorem C5_breakdown_amended_witness :
    ("✅ Effective", (3 : Nat)).2 =
      dataWithDerived.countP (fun r => r.effectiveness == ("✅ Effective", (3 : Nat)).1) :=
  (C5_breakdown_amended dataWithDerived).2.2.1 ("✅ Effective", (3 : Nat)) (by decide)

/-- C6 counterexample: on the session table every group's count is 1, so
every row of the input-usage table is tied, yet the output order is not the
first-encountered group order — `groupby` emits the groups sorted by key
(ascending `(Input Type, Inputs Used)`), and the count sort keeps that
order for ties. -/
theorem C6_tie_order_counterexample :
    (inputs_used dataWithDerived).map (fun t => t.2.2) = [1, 1, 1, 1, 1] ∧
    (inputs_used dataWithDerived).map (fun t => (t.1, t.2.1)) ≠
      dedupFirst (dataWithDerived.map rowKey) := by
  decide

/-- C6 amended: `inputs_used` groups records by the exact pair
(inputType, inputsUsed) — identical `inputsUsed` strings are grouped
together even across different owners, and two distinct strings are never
merged — with exactly one row per distinct pair, each counting the records
with that exact pair, sorted descending by count; ties are broken by the
ascending key order the grouping step emits (witnessed on the sample table,
where all five groups are tied at count 1), not by first-encountered group
order. -/
theorem C6_input_usage_amended (rows : List StoredRow) :
    (∀ t ∈ inputs_used rows, t.2.2 = rows.countP (fun r => rowKey r == (t.1, t.2.1))) ∧
    ((inputs_used rows).map (fun t => (t.1, t.2.1))).Perm (dedupFirst (rows.map rowKey)) ∧
    ((inputs_used rows).map (fun t => (t.1, t.2.1))).Nodup ∧
    (inputs_used rows).Pairwise (fun a b => b.2.2 ≤ a.2.2) ∧
    inputs_used dataWithDerived =
      [("📊 Data Analysis", "Call volume trend, shift overlap data", 1),
       ("📊 Data Analysis", "Referral approval logs", 1),
       ("📊 Data Analysis", "Top 10 call reasons analysis", 1),
       ("🗣️ Feedback", "Anecdotal staff complaints", 1),
       ("🗣️ Feedback", "Patient survey comments", 1)] := by
  unfold inputs_used
  have hperm := perm_sort_values_desc (fun t : String × String × Nat => t.2.2)
    ((List.insertionSort keyLE (dedupFirst (rows.map rowKey))).map
      (fun k => (k.1, k.2, rows.countP (fun r => rowKey r == k))))
  have hmapkey :
      ((List.insertionSort keyLE (dedupFirst (rows.map rowKey))).map
        (fun k => (k.1, k.2, rows.countP (fun r => rowKey r == k)))).map
          (fun t => (t.1, t.2.1)) =
        List.insertionSort keyLE (dedupFirst (rows.map rowKey)) := by
    rw [List.map_map]
    exact List.map_id _
  have hkeysperm :
      (((List.insertionSort keyLE (dedupFirst (rows.map rowKey))).map
        (fun k => (k.1, k.2, rows.countP (fun r => rowKey r == k)))).map
          (fun t => (t.1, t.2.1))).Perm (dedupFirst (rows.map rowKey)) := by
    rw [hmapkey]
    exact List.perm_insertionSort keyLE (dedupFirst (rows.map rowKey))
  refine ⟨fun t ht => ?_, (hperm.map (fun t => (t.1, t.2.1))).trans hkeysperm, ?_,
    pairwise_sort_values_desc _ _, by decide⟩
  · rcases List.mem_map.mp (hperm.mem_iff.mp ht) with ⟨k, hk, rfl⟩
    rfl
  · refine (((hperm.map (fun t => (t.1, t.2.1))).trans hkeysperm).nodup_iff).mpr ?_
    exact nodup_dedupFirst _

/-- Witness for C6 amended: the count recorded for the group
(Data Analysis, "Referral approval logs") on the session table is the
number of records carrying that exact pair. -/
theorem C6_input_usage_amended_witness :
    ("📊 Data Analysis", "Referral approval logs", (1 : Nat)).2.2 =
      dataWithDerived.countP
        (fun r => rowKey r == ("📊 Data Analysis", "Referral approval logs")) :=
  (C6_input_usage_amended dataWithDerived).1
    ("📊 Data Analysis", "Referral approval logs", (1 : Nat)) (by decide)

/-- C9 counterexample: the program's setup is not "derived fields computed
per query": lines 99-102 write the two derived columns onto the stored
table itself, so the stored table after setup differs from the loaded one —
its derived columns are populated with the precomputed values. -/
theorem C9_store_mutation_counterexample :
    sessionTable ≠ loadedTable ∧
    loadedTable.inputTypeCol = none ∧
    sessionTable.inputTypeCol =
      some ["📊 Data Analysis", "📊 Data Analysis", "🗣️ Feedback", "🗣️ Feedback",
        "📊 Data Analysis"] ∧
    sessionTable.timeToOutcomeCol = some [4, 7, 12, 5, 2] := by
  refine ⟨by decide, rfl, by decide, by decide⟩

/-- C9 amended: the analytics phase (filter, star table, summary metrics,
effectiveness chart, input usage, owner performance) never changes the
stored table — the filter works on a copy and the aggregations allocate new
frames — but the derived fields are not computed per query: they are
computed once at setup and written onto the stored table as two extra
columns, whose values equal the derivation functions applied to the stored
records; the base record fields are preserved. -/
theorem C9_frame_amended :
    (∀ (c : Criteria) (t : List StoredRow), (analyticsPhase c t).2 = t) ∧
    sessionTable.rows = data ∧
    sessionTable.inputTypeCol = some (data.map (fun r => categorize_input r.inputsUsed)) ∧
    sessionTable.timeToOutcomeCol = some (data.map timeToOutcome) ∧
    dataWithDerived.map (fun r => r.toDecisionRecord) = data :=
  ⟨fun c t => rfl, rfl, rfl, rfl, by decide⟩

/-- Witness for C9 amended: one full analytics pass over the session table
returns the table unchanged. -/
theorem C9_frame_amended_witness :
    (analyticsPhase { owners := [], teams := [], effectiveness := [] } dataWithDerived).2 =
      dataWithDerived :=
  C9_frame_amended.1 { owners := [], teams := [], effectiveness := [] } dataWithDerived
